import Mathlib

/-!
Verification of the REST controllers in `src/controllers` of the shopping
backend (product, tax and attribute controllers).  The controllers are
embedded shallowly: request parameters are modelled as JavaScript values
(`undefined` or strings, plus the integer defaults the code substitutes),
JavaScript numeric coercion (`isNaN`, `parseInt`, `Number`, `||` defaulting)
is modelled over the rationals, the Sequelize query-options objects that the
methods build are reified as a record, and the database is a list-based
relational store.  Each controller method becomes a total function from the
shared `productsQueryMap.attributes` state, the request, the database and an
optional injected database error to a result holding the HTTP outcome, the
ORM query issued (if any) and the state of the shared attributes array after
the call.

The modelled fragment of JavaScript number coercion covers plain decimal
numerals (optional sign, digits, optional fractional part) and the empty
string; exponent, hexadecimal, `Infinity` and whitespace-padded literals are
outside the fragment and are treated as NaN.
-/

set_option maxHeartbeats 1000000

namespace LetsGoShopping

/-- JavaScript values that appear as HTTP query parameters: `undef` models
`undefined` (parameter absent), `str` models the string values the web
framework delivers, and `num` models the plain integer defaults (`1`, `20`,
`200`) the controllers substitute for missing parameters. -/
inductive JSVal where
  | undef
  | num (n : Int)
  | str (s : String)
deriving DecidableEq

/-- JavaScript number results: `nan` for NaN, `inf` and `negInf` for the two
infinities, `finite q` for a finite double (modelled as a rational). -/
inductive JSNum where
  | nan
  | inf
  | negInf
  | finite (q : ℚ)
deriving DecidableEq

/-!
Rational arithmetic used by the model.  The standard library's `Rat.add`,
`Rat.sub`, `Rat.mul` and `Rat.inv` are marked irreducible, which would stop
the kernel from evaluating the embedded controllers on concrete inputs; the
operations are therefore expressed through `Rat.divInt` on numerators and
denominators, and proved equal to the ordinary field operations once and for
all below. -/

/-- Addition on `ℚ` through `Rat.divInt` (kernel-computable). -/
def qAdd (a b : ℚ) : ℚ := Rat.divInt (a.num * b.den + b.num * a.den) (a.den * b.den)

/-- Subtraction on `ℚ` through `Rat.divInt` (kernel-computable). -/
def qSub (a b : ℚ) : ℚ := Rat.divInt (a.num * b.den - b.num * a.den) (a.den * b.den)

/-- Multiplication on `ℚ` through `Rat.divInt` (kernel-computable). -/
def qMul (a b : ℚ) : ℚ := Rat.divInt (a.num * b.num) (a.den * b.den)

/-- Division on `ℚ` through `Rat.divInt` (kernel-computable). -/
def qDiv (a b : ℚ) : ℚ := Rat.divInt (a.num * b.den) (a.den * b.num)

/-- Numeric value of a decimal digit character. -/
def digitVal (c : Char) : Nat := c.toNat - 48

/-- Accumulating evaluation of a digit string; collapses to `none` on the
first non-digit character. -/
def natOfDigitsAux : Option Nat → List Char → Option Nat
  | acc, [] => acc
  | some a, c :: cs =>
    if c.isDigit then natOfDigitsAux (some (a * 10 + digitVal c)) cs
    else natOfDigitsAux none cs
  | none, _ :: _ => none

/-- Value of a nonempty all-digit character list; `none` if the list is empty
or contains a non-digit. -/
def natOfDigits (cs : List Char) : Option Nat :=
  match cs with
  | [] => none
  | _ => natOfDigitsAux (some 0) cs

/-- Like `natOfDigits`, but an empty digit list counts as zero.  Used for the
two sides of a decimal point, where one side may be empty (as in `".5"` or
`"12."`). -/
def natOfDigitsZero (cs : List Char) : Option Nat :=
  match cs with
  | [] => some 0
  | _ => natOfDigitsAux (some 0) cs

/-- JavaScript `Number` coercion of an unsigned decimal numeral:
`digits`, `digits.digits`, `.digits` or `digits.`; `none` is NaN. -/
def ratOfDecimalChars (cs : List Char) : Option ℚ :=
  let intPart := cs.takeWhile Char.isDigit
  let rest := cs.dropWhile Char.isDigit
  match rest with
  | [] => (natOfDigits intPart).map (fun n => (n : ℚ))
  | '.' :: frac =>
    if frac.all Char.isDigit && (!intPart.isEmpty || !frac.isEmpty) then
      match natOfDigitsZero intPart, natOfDigitsZero frac with
      | some i, some f => some (qAdd (i : ℚ) (qDiv (f : ℚ) ((10 ^ frac.length : ℕ) : ℚ)))
      | _, _ => none
    else none
  | _ => none

/-- JavaScript `Number(string)`: the empty string coerces to `0`; otherwise an
optional sign followed by a decimal numeral; anything else is NaN (`none`). -/
def jsStringToNumber (s : String) : Option ℚ :=
  match s.data with
  | [] => some 0
  | '-' :: cs => (ratOfDecimalChars cs).map (fun q => -q)
  | '+' :: cs => ratOfDecimalChars cs
  | cs => ratOfDecimalChars cs

/-- JavaScript `Number` coercion of a parameter value; `undefined` coerces to
NaN. -/
def toNumberJs : JSVal → Option ℚ
  | .undef => none
  | .num n => some (n : ℚ)
  | .str s => jsStringToNumber s

/-- The global `isNaN`: coerce with `Number` and test for NaN. -/
def isNaNjs (v : JSVal) : Bool := (toNumberJs v).isNone

/-- JavaScript truthiness of a parameter value (`undefined`, `0` and the
empty string are falsy). -/
def truthyJs : JSVal → Bool
  | .undef => false
  | .num n => n != 0
  | .str s => s != ""

/-- JavaScript `a || b`. -/
def jsOr (a b : JSVal) : JSVal := if truthyJs a then a else b

/-- ES6 destructuring default (`{ page = 1 } = req.query`): replaces only
`undefined`. -/
def jsDefault (v : JSVal) (d : Int) : JSVal :=
  match v with
  | .undef => .num d
  | v => v

/-- JavaScript `parseInt(v, 10)`: an optional sign followed by the longest
leading run of decimal digits; `none` is NaN. -/
def parseIntJS : JSVal → Option Int
  | .undef => none
  | .num n => some n
  | .str s =>
    match s.data with
    | '-' :: cs => (natOfDigits (cs.takeWhile Char.isDigit)).map (fun n => -(n : Int))
    | '+' :: cs => (natOfDigits (cs.takeWhile Char.isDigit)).map (fun n => (n : Int))
    | cs => (natOfDigits (cs.takeWhile Char.isDigit)).map (fun n => (n : Int))

/-- JavaScript template-string interpolation of a parameter value. -/
def jsToString : JSVal → String
  | .undef => "undefined"
  | .num n => toString n
  | .str s => s

/-- Coercion of a parameter to a JavaScript number, keeping NaN explicit. -/
def jsNumOf (v : JSVal) : JSNum :=
  match toNumberJs v with
  | some q => .finite q
  | none => .nan

/-- Subtraction on JavaScript numbers.  Infinite operands cannot arise from
`Number` coercion of the modelled parameter grammar, so they are collapsed to
NaN. -/
def jsSub : JSNum → JSNum → JSNum
  | .finite a, .finite b => .finite (qSub a b)
  | _, _ => .nan

/-- Multiplication on JavaScript numbers (same fragment as `jsSub`). -/
def jsMul : JSNum → JSNum → JSNum
  | .finite a, .finite b => .finite (qMul a b)
  | _, _ => .nan

/-- Division on JavaScript numbers: division by zero follows IEEE semantics
(`x / 0` is an infinity for nonzero `x`, and `0 / 0` is NaN). -/
def jsDiv : JSNum → JSNum → JSNum
  | .finite a, .finite b =>
    if b = 0 then (if 0 < a then .inf else if a < 0 then .negInf else .nan)
    else .finite (qDiv a b)
  | _, _ => .nan

/-- JavaScript `Math.ceil`; NaN and the infinities pass through. -/
def jsCeil : JSNum → JSNum
  | .finite q => .finite ((⌈q⌉ : ℤ) : ℚ)
  | x => x

/-- Check that character list `ys` begins with `xs`. -/
def listStarts : List Char → List Char → Bool
  | [], _ => true
  | _ :: _, [] => false
  | x :: xs, y :: ys => x == y && listStarts xs ys

/-- Occurrence of `needle` as a contiguous substring of `hay`; this is the
row filter generated by Sequelize `Op.substring` (SQL `LIKE` with the needle
between wildcards). -/
def strContains (hay needle : String) : Bool :=
  (List.range (hay.length + 1)).any (fun i => listStarts needle.data (hay.data.drop i))

/-! ### Database rows and request data -/

/-- A row of the `product` table (the columns the claims inspect). -/
structure ProductRow where
  product_id : String
  name : String
  description : String
deriving DecidableEq

/-- A row of the `category` table. -/
structure CategoryRow where
  category_id : String
  name : String
  department_id : String
deriving DecidableEq

/-- A row of the `department` table. -/
structure DepartmentRow where
  department_id : String
  name : String
deriving DecidableEq

/-- A row of the `product_category` link table. -/
structure ProductCategoryRow where
  product_id : String
  category_id : String
deriving DecidableEq

/-- A row of the `tax` table. -/
structure TaxRow where
  tax_id : String
  tax_type : String
deriving DecidableEq

/-- A row of the `attribute` table. -/
structure AttributeRow where
  attribute_id : String
  name : String
deriving DecidableEq

/-- A row of the `attribute_value` table. -/
structure AttributeValueRow where
  attribute_value_id : String
  attribute_id : String
  value : String
deriving DecidableEq

/-- Projection of an attribute value row onto the columns selected by
`getAttributeValues` (`value`, `attribute_value_id`). -/
structure AttributeValueOut where
  value : String
  attribute_value_id : String
deriving DecidableEq

/-- The relational store behind the ORM.  Lists are kept in table order; the
controllers issue no `ORDER BY`, so query results preserve this order. -/
structure DB where
  products : List ProductRow
  categories : List CategoryRow
  departments : List DepartmentRow
  productCategories : List ProductCategoryRow
  taxes : List TaxRow
  attributeRows : List AttributeRow
  attributeValues : List AttributeValueRow

/-- The request data the controllers read: query-string parameters (absent
parameters are `undef`) and route parameters (always strings, present
whenever the route matched). -/
structure Req where
  page : JSVal := .undef
  limit : JSVal := .undef
  description_length : JSVal := .undef
  query_string : JSVal := .undef
  all_words : JSVal := .undef
  product_id : String := ""
  category_id : String := ""
  department_id : String := ""
  tax_id : String := ""
  attribute_id : String := ""
deriving DecidableEq

/-! ### Reified ORM queries -/

/-- A selected column: either a plain column name or a raw SQL literal
(`sequelize.literal`). -/
inductive Attr where
  | col (name : String)
  | literal (sql : String)
deriving DecidableEq

/-- The `where: { name: ... }` condition built by `searchProduct`: Sequelize
`Op.eq` or `Op.substring` applied to the interpolated query string. -/
inductive NameCond where
  | eqCond (s : String)
  | substringCond (s : String)
deriving DecidableEq

/-- A Sequelize query-options object, flattened to the fields this codebase
uses.  `pk` carries a `findByPk` id.  `limit` is the integer the controller
assigned (`none` when `parseInt` produced NaN).  `offset` is the raw
JavaScript number assigned, which may be fractional or NaN. -/
structure SqlQuery where
  table : String
  pk : Option String := none
  attrs : Option (List Attr) := none
  whereName : Option NameCond := none
  whereField : Option (String × String) := none
  includeProduct : Bool := false
  includeProductAttrs : Option (List Attr) := none
  includeCategory : Bool := false
  includeCategoryWhere : Option (String × String) := none
  includeCategoryAttrs : Option (List Attr) := none
  includeAttributeValues : Bool := false
  limit : Option Int := none
  offset : Option JSNum := none
deriving DecidableEq

/-- MySQL evaluation of a `LIMIT`/`OFFSET` window: both must be nonnegative
integers; a NaN, negative or fractional value is a SQL error, surfaced to the
controller as a thrown database error. -/
def execWindow {α : Type} (rows : List α) (lim : Option Int) (off : Option JSNum) :
    Except String (List α) :=
  match lim, off with
  | some l, some (.finite q) =>
    if 0 ≤ l && 0 ≤ q.num && q.den == 1 then
      .ok ((rows.drop q.num.toNat).take l.toNat)
    else .error "SQL error"
  | _, _ => .error "SQL error"

/-! ### Responses -/

/-- The `paginationMeta` object computed by `getAllProducts`.  `currentPage`
and `currentPageSize` come from `parseInt` and may be NaN (`none`, serialized
as `null`); `totalPages` is a JavaScript number because `Math.ceil` can see a
division by zero. -/
structure PaginationMeta where
  currentPage : Option Int
  currentPageSize : Option Int
  totalPages : JSNum
  totalRecords : Nat
deriving DecidableEq

/-- The JSON bodies the controllers send, one constructor per shape.
`validationErr e` is the object with fields `err` and `status: false`;
`errorBody s m` is the object with a single field `error` holding `status`
and `message`; `paginated` is the object with fields `paginationMeta`,
`rows` and `status`; `productArr` is a bare JSON array of products;
`productRows` is an object with the single field `rows` (entries may be
`null` when an outer join finds no product); the remaining constructors
cover the single-entity objects, the bare arrays of the other tables, the
`rows`-wrapped category lists, the attribute-value arrays, the
`message`-only object, and the empty body sent for `undefined`. -/
inductive Body where
  | validationErr (err : String)
  | errorBody (status : Nat) (message : String)
  | paginated (paginationMeta : PaginationMeta) (rows : List ProductRow) (status : Bool)
  | productArr (rows : List ProductRow)
  | productRows (rows : List (Option ProductRow))
  | singleProduct (p : ProductRow)
  | departmentArr (ds : List DepartmentRow)
  | singleDepartment (d : DepartmentRow)
  | categoryRows (cs : List CategoryRow)
  | singleCategory (c : CategoryRow)
  | taxArr (ts : List TaxRow)
  | singleTax (t : TaxRow)
  | attributeArr (xs : List AttributeRow)
  | singleAttribute (a : AttributeRow)
  | attributeValueArr (vs : List AttributeValueOut)
  | messageBody (m : String)
  | emptyBody
deriving DecidableEq

/-- What a controller method does with the response: send a status and a JSON
body, or forward an error to the middleware with `next(error)`.  Each method
performs exactly one of the two, so the type has one constructor for each. -/
inductive Outcome where
  | respond (status : Nat) (body : Body)
  | nextErr (msg : String)
deriving DecidableEq

/-- Result of a product-controller method: the outcome, the ORM query issued
(`none` when the method returned before querying), and the state of the
shared `productsQueryMap.attributes` array after the call. -/
structure MethodResult where
  outcome : Outcome
  query : Option SqlQuery
  qmAfter : List Attr
deriving DecidableEq

/-- Result of a controller method that does not touch `productsQueryMap`. -/
structure SimpleResult where
  outcome : Outcome
  query : Option SqlQuery
deriving DecidableEq

/-- Status of an outcome (`none` when the method forwarded an error instead
of responding). -/
def outcomeStatus : Outcome → Option Nat
  | .respond s _ => some s
  | .nextErr _ => none

/-- Body of an outcome (`none` when the method forwarded an error). -/
def outcomeBody : Outcome → Option Body
  | .respond _ b => some b
  | .nextErr _ => none

/-- The `paginationMeta` field of a body, when the body has the paginated
list shape. -/
def bodyMeta : Body → Option PaginationMeta
  | .paginated m _ _ => some m
  | _ => none

/-! ### The product controller -/

/-- The module-level shared `productsQueryMap.attributes` array in its
initial state: the product columns selected by the product endpoints. -/
def productsQueryMapAttrs : List Attr :=
  [.col "product_id", .col "name", .col "price", .col "thumbnail",
   .col "discounted_price", .col "description"]

/-- The SQL literal `SUBSTRING(description, 1, d) as description` the product
endpoints append to the selected attributes, with `d` the interpolated
description length. -/
def substringLiteral (d : JSVal) : Attr :=
  .literal ("SUBSTRING(description, 1, " ++ jsToString d ++ ") as description")

/-- The variant used by `getProductsByDepartment`, which qualifies the column
with the association alias. -/
def substringLiteralQualified (d : JSVal) : Attr :=
  .literal ("SUBSTRING(product.description, 1, " ++ jsToString d ++ ") as description")

/-- The 400 body shared by the four list endpoints. -/
def validationBody : Body :=
  .validationErr "Query parameters should be valid integer values"

/-- Embedding of `ProductController.getAllProducts`.  `qm` is the current
state of the shared `productsQueryMap.attributes` array; because the code
copies `productsQueryMap` with `Object.assign` (a shallow copy) and then
calls `push` on the shared `attributes` array, the method returns the grown
array as its new shared state. -/
def getAllProducts (qm : List Attr) (req : Req) (db : DB) (dbErr : Option String) :
    MethodResult :=
  let descriptionLength := req.description_length
  let limit := jsOr req.limit (.num 20)
  let page := jsOr req.page (.num 1)
  if isNaNjs page || isNaNjs limit || isNaNjs descriptionLength then
    { outcome := .respond 400 validationBody, query := none, qmAfter := qm }
  else
    let qmPushed := qm ++ [substringLiteral descriptionLength]
    let q : SqlQuery :=
      { table := "Product",
        attrs := some qmPushed,
        limit := parseIntJS limit,
        offset := some (jsMul (jsSub (jsNumOf page) (.finite 1)) (jsNumOf limit)) }
    let outcome :=
      match dbErr with
      | some e => Outcome.nextErr e
      | none =>
        match execWindow db.products q.limit q.offset with
        | .error e => Outcome.nextErr e
        | .ok rows =>
          let count := db.products.length
          Outcome.respond 200 (.paginated
            { currentPage := parseIntJS page,
              currentPageSize := parseIntJS limit,
              totalPages := jsCeil (jsDiv (.finite (count : ℚ)) (jsNumOf limit)),
              totalRecords := count }
            rows true)
    { outcome := outcome, query := some q, qmAfter := qmPushed }

/-- The `where: { name: ... }` condition of `searchProduct`: `Op.eq` against
the interpolated query string when `all_words` is exactly the string `on`,
`Op.substring` otherwise. -/
def searchCondOf (req : Req) : NameCond :=
  if req.all_words = .str "on" then .eqCond (jsToString req.query_string)
  else .substringCond (jsToString req.query_string)

/-- Row filter denoted by a `NameCond`. -/
def nameMatches (c : NameCond) (name : String) : Bool :=
  match c with
  | .eqCond s => name == s
  | .substringCond s => strContains name s

/-- Embedding of `ProductController.searchProduct`.  This method copies the
shared attributes with `concat`, so the shared state is returned unchanged. -/
def searchProduct (qm : List Attr) (req : Req) (db : DB) (dbErr : Option String) :
    MethodResult :=
  let descriptionLength := jsDefault req.description_length 200
  let limit := jsOr req.limit (.num 20)
  let page := jsOr req.page (.num 1)
  if isNaNjs page || isNaNjs limit || isNaNjs descriptionLength then
    { outcome := .respond 400 validationBody, query := none, qmAfter := qm }
  else
    let q : SqlQuery :=
      { table := "Product",
        attrs := some (qm ++ [substringLiteral (jsOr descriptionLength (.num 200))]),
        whereName := some (searchCondOf req),
        limit := parseIntJS limit,
        offset := some (jsMul (jsSub (jsNumOf page) (.finite 1)) (jsNumOf limit)) }
    let outcome :=
      match dbErr with
      | some e => Outcome.nextErr e
      | none =>
        match execWindow (db.products.filter (fun p => nameMatches (searchCondOf req) p.name))
            q.limit q.offset with
        | .error e => Outcome.nextErr e
        | .ok rows => Outcome.respond 200 (.productArr rows)
    { outcome := outcome, query := some q, qmAfter := qm }

/-- Embedding of `ProductController.getProductsByCategory`.  The destructuring
defaults replace only `undefined`; the offset computation re-defaults falsy
values with `||`, and the limit is re-defaulted with a ternary. -/
def getProductsByCategory (qm : List Attr) (req : Req) (db : DB) (dbErr : Option String) :
    MethodResult :=
  let descriptionLength := jsDefault req.description_length 200
  let page := jsDefault req.page 1
  let limit := jsDefault req.limit 20
  if isNaNjs page || isNaNjs limit || isNaNjs descriptionLength then
    { outcome := .respond 400 validationBody, query := none, qmAfter := qm }
  else
    let offset := jsMul (jsSub (jsNumOf (jsOr page (.num 1))) (.finite 1))
      (jsNumOf (jsOr limit (.num 20)))
    let q : SqlQuery :=
      { table := "ProductCategory",
        limit := if truthyJs limit then parseIntJS limit else some 20,
        offset := some offset,
        whereField := some ("category_id", req.category_id),
        includeProduct := true,
        includeProductAttrs :=
          some (qm ++ [substringLiteral (jsOr descriptionLength (.num 200))]) }
    let outcome :=
      match dbErr with
      | some e => Outcome.nextErr e
      | none =>
        match execWindow
            (db.productCategories.filter (fun l => l.category_id == req.category_id))
            q.limit q.offset with
        | .error e => Outcome.nextErr e
        | .ok links =>
          Outcome.respond 200 (.productRows
            (links.map (fun l => db.products.find? (fun p => p.product_id == l.product_id))))
    { outcome := outcome, query := some q, qmAfter := qm }

/-- Embedding of `ProductController.getProductsByDepartment`.  The included
`Category` carries a `where` on `department_id`, which makes the join inner:
only links whose category belongs to the department survive. -/
def getProductsByDepartment (qm : List Attr) (req : Req) (db : DB) (dbErr : Option String) :
    MethodResult :=
  let descriptionLength := jsDefault req.description_length 200
  let page := jsDefault req.page 1
  let limit := jsDefault req.limit 20
  if isNaNjs page || isNaNjs limit || isNaNjs descriptionLength then
    { outcome := .respond 400 validationBody, query := none, qmAfter := qm }
  else
    let offset := jsMul (jsSub (jsNumOf (jsOr page (.num 1))) (.finite 1))
      (jsNumOf (jsOr limit (.num 20)))
    let q : SqlQuery :=
      { table := "ProductCategory",
        attrs := some [],
        limit := if truthyJs limit then parseIntJS limit else some 20,
        offset := some offset,
        includeCategory := true,
        includeCategoryWhere := some ("department_id", req.department_id),
        includeCategoryAttrs := some [],
        includeProduct := true,
        includeProductAttrs :=
          some (qm ++ [substringLiteralQualified (jsOr descriptionLength (.num 200))]) }
    let outcome :=
      match dbErr with
      | some e => Outcome.nextErr e
      | none =>
        match execWindow
            (db.productCategories.filter (fun l =>
              (db.categories.find? (fun c => c.category_id == l.category_id)).any
                (fun c => c.department_id == req.department_id)))
            q.limit q.offset with
        | .error e => Outcome.nextErr e
        | .ok links =>
          Outcome.respond 200 (.productRows
            (links.map (fun l => db.products.find? (fun p => p.product_id == l.product_id))))
    { outcome := outcome, query := some q, qmAfter := qm }

/-- Embedding of `ProductController.getProduct` (single product by primary
key; only `description_length` is validated). -/
def getProduct (qm : List Attr) (req : Req) (db : DB) (dbErr : Option String) :
    MethodResult :=
  let descriptionLength := jsDefault req.description_length 200
  if isNaNjs descriptionLength then
    { outcome := .respond 400 (.validationErr "description_length should be valid integer values"),
      query := none, qmAfter := qm }
  else
    let q : SqlQuery :=
      { table := "Product",
        pk := some req.product_id,
        attrs := some (qm ++ [.col "image", .col "display", .col "image_2",
          substringLiteral descriptionLength]) }
    let outcome :=
      match dbErr with
      | some e => Outcome.nextErr e
      | none =>
        match db.products.find? (fun p => p.product_id == req.product_id) with
        | some p => Outcome.respond 200 (.singleProduct p)
        | none =>
          Outcome.respond 404 (.errorBody 404
            ("Product with id " ++ req.product_id ++ " does not exist"))
    { outcome := outcome, query := some q, qmAfter := qm }

/-- Embedding of `ProductController.getAllDepartments`. -/
def getAllDepartments (req : Req) (db : DB) (dbErr : Option String) : SimpleResult :=
  let q : SqlQuery := { table := "Department" }
  let outcome :=
    match dbErr with
    | some e => Outcome.nextErr e
    | none => Outcome.respond 200 (.departmentArr db.departments)
  { outcome := outcome, query := some q }

/-- Embedding of `ProductController.getDepartment`. -/
def getDepartment (req : Req) (db : DB) (dbErr : Option String) : SimpleResult :=
  let q : SqlQuery := { table := "Department", pk := some req.department_id }
  let outcome :=
    match dbErr with
    | some e => Outcome.nextErr e
    | none =>
      match db.departments.find? (fun d => d.department_id == req.department_id) with
      | some d => Outcome.respond 200 (.singleDepartment d)
      | none =>
        Outcome.respond 404 (.errorBody 404
          ("Department with id " ++ req.department_id ++ " does not exist"))
  { outcome := outcome, query := some q }

/-- Embedding of `ProductController.getAllCategories` (the body wraps the
rows in an object with a single `rows` field). -/
def getAllCategories (req : Req) (db : DB) (dbErr : Option String) : SimpleResult :=
  let q : SqlQuery := { table := "Category" }
  let outcome :=
    match dbErr with
    | some e => Outcome.nextErr e
    | none => Outcome.respond 200 (.categoryRows db.categories)
  { outcome := outcome, query := some q }

/-- Embedding of `ProductController.getSingleCategory`. -/
def getSingleCategory (req : Req) (db : DB) (dbErr : Option String) : SimpleResult :=
  let q : SqlQuery := { table := "Category", pk := some req.category_id }
  let outcome :=
    match dbErr with
    | some e => Outcome.nextErr e
    | none =>
      match db.categories.find? (fun c => c.category_id == req.category_id) with
      | some c => Outcome.respond 200 (.singleCategory c)
      | none =>
        Outcome.respond 404 (.errorBody 404
          ("Category with id " ++ req.category_id ++ " does not exist"))
  { outcome := outcome, query := some q }

/-- Embedding of `ProductController.getDepartmentCategories`. -/
def getDepartmentCategories (req : Req) (db : DB) (dbErr : Option String) : SimpleResult :=
  let q : SqlQuery :=
    { table := "Category", whereField := some ("department_id", req.department_id) }
  let outcome :=
    match dbErr with
    | some e => Outcome.nextErr e
    | none =>
      Outcome.respond 200 (.categoryRows
        (db.categories.filter (fun c => c.department_id == req.department_id)))
  { outcome := outcome, query := some q }

/-- Embedding of `ProductController.getProductCategories`: the method fetches
all `ProductCategory` links of the product with their joined `Category`, but
serializes only `categories[0].Category`.  A product with several categories
therefore yields a single category object; when the first link has no
matching category row the serialized value is `undefined`, which the web
framework sends as an empty body. -/
def getProductCategories (req : Req) (db : DB) (dbErr : Option String) : SimpleResult :=
  let q : SqlQuery :=
    { table := "ProductCategory",
      attrs := some [],
      whereField := some ("product_id", req.product_id),
      includeCategory := true,
      includeCategoryAttrs := some [.col "name", .col "category_id", .col "department_id"] }
  let outcome :=
    match dbErr with
    | some e => Outcome.nextErr e
    | none =>
      match db.productCategories.filter (fun l => l.product_id == req.product_id) with
      | [] => Outcome.respond 404 (.errorBody 404 "Category not found")
      | l :: _ =>
        match db.categories.find? (fun c => c.category_id == l.category_id) with
        | some c => Outcome.respond 200 (.singleCategory c)
        | none => Outcome.respond 200 .emptyBody
  { outcome := outcome, query := some q }

/-! ### The tax controller -/

/-- Embedding of `TaxController.getAllTax`. -/
def getAllTax (req : Req) (db : DB) (dbErr : Option String) : SimpleResult :=
  let q : SqlQuery := { table := "Tax" }
  let outcome :=
    match dbErr with
    | some e => Outcome.nextErr e
    | none => Outcome.respond 200 (.taxArr db.taxes)
  { outcome := outcome, query := some q }

/-- Embedding of `TaxController.getSingleTax`. -/
def getSingleTax (req : Req) (db : DB) (dbErr : Option String) : SimpleResult :=
  let q : SqlQuery := { table := "Tax", pk := some req.tax_id }
  let outcome :=
    match dbErr with
    | some e => Outcome.nextErr e
    | none =>
      match db.taxes.find? (fun t => t.tax_id == req.tax_id) with
      | some t => Outcome.respond 200 (.singleTax t)
      | none =>
        Outcome.respond 404 (.errorBody 404
          ("Tax with id " ++ req.tax_id ++ " does not exist"))
  { outcome := outcome, query := some q }

/-! ### The attribute controller -/

/-- Embedding of `AttributeController.getAllAttributes`. -/
def getAllAttributes (req : Req) (db : DB) (dbErr : Option String) : SimpleResult :=
  let q : SqlQuery := { table := "Attribute" }
  let outcome :=
    match dbErr with
    | some e => Outcome.nextErr e
    | none => Outcome.respond 200 (.attributeArr db.attributeRows)
  { outcome := outcome, query := some q }

/-- Embedding of `AttributeController.getSingleAttribute`. -/
def getSingleAttribute (req : Req) (db : DB) (dbErr : Option String) : SimpleResult :=
  let q : SqlQuery := { table := "Attribute", pk := some req.attribute_id }
  let outcome :=
    match dbErr with
    | some e => Outcome.nextErr e
    | none =>
      match db.attributeRows.find? (fun a => a.attribute_id == req.attribute_id) with
      | some a => Outcome.respond 200 (.singleAttribute a)
      | none =>
        Outcome.respond 404 (.errorBody 404
          ("Attribute with id " ++ req.attribute_id ++ " does not exist"))
  { outcome := outcome, query := some q }

/-- Embedding of `AttributeController.getAttributeValues` (a `findByPk` with
an included list of attribute values, projected onto `value` and
`attribute_value_id`). -/
def getAttributeValues (req : Req) (db : DB) (dbErr : Option String) : SimpleResult :=
  let q : SqlQuery :=
    { table := "Attribute", pk := some req.attribute_id,
      includeAttributeValues := true }
  let outcome :=
    match dbErr with
    | some e => Outcome.nextErr e
    | none =>
      match db.attributeRows.find? (fun a => a.attribute_id == req.attribute_id) with
      | some _ =>
        Outcome.respond 200 (.attributeValueArr
          ((db.attributeValues.filter (fun v => v.attribute_id == req.attribute_id)).map
            (fun v => { value := v.value, attribute_value_id := v.attribute_value_id })))
      | none =>
        Outcome.respond 404 (.errorBody 404
          ("Attribute with id " ++ req.attribute_id ++ " does not exist"))
  { outcome := outcome, query := some q }

/-- Embedding of `AttributeController.getProductAttributes` (an unimplemented
stub that answers a fixed message and issues no query). -/
def getProductAttributes (req : Req) (db : DB) (dbErr : Option String) : SimpleResult :=
  { outcome := .respond 200 (.messageBody "this works"), query := none }

/-! ### Response-shape predicates -/

/-- Test for the paginated list shape, the object with fields
`paginationMeta`, `rows` and `status`. -/
def isPaginatedShape : Body → Bool
  | .paginated _ _ _ => true
  | _ => false

/-- Test for a bare JSON array of products. -/
def isBareProductArray : Body → Bool
  | .productArr _ => true
  | _ => false

/-- Test for the object with the single field `rows`. -/
def isRowsOnlyShape : Body → Bool
  | .productRows _ => true
  | _ => false

/-- Test for the not-found shape, the object with a single `error` field
holding `status: 404` and a `message`. -/
def isError404Shape : Body → Bool
  | .errorBody s _ => s == 404
  | _ => false

/-- Holds when every response with the given status has a body accepted by
`ok`; forwarded errors and other statuses pass vacuously. -/
def statusBodyOk (s : Nat) (ok : Body → Bool) : Outcome → Bool
  | .respond st b => st != s || ok b
  | .nextErr _ => true

/-! ### Concrete fixtures used by the witnesses and counterexamples -/

/-- A store with three products and nothing else. -/
def dbT : DB :=
  { products := [{ product_id := "1", name := "apple", description := "a" },
                 { product_id := "2", name := "banana", description := "b" },
                 { product_id := "3", name := "grape", description := "c" }],
    categories := [], departments := [], productCategories := [],
    taxes := [], attributeRows := [], attributeValues := [] }

/-- A request with numeric `page`, `limit` and `description_length`. -/
def reqT : Req := { page := .str "2", limit := .str "2", description_length := .str "50" }

/-- A request whose `description_length` is supplied, numeric, and not an
integer. -/
def reqFloatDL : Req := { description_length := .str "2.5", product_id := "7" }

/-- A store holding the single product the id `7` of `reqFloatDL` names. -/
def dbOneProduct : DB :=
  { products := [{ product_id := "7", name := "Chair", description := "solid oak" }],
    categories := [], departments := [], productCategories := [],
    taxes := [], attributeRows := [], attributeValues := [] }

/-- A request whose `page` and `description_length` both fail numeric
coercion. -/
def reqBadBoth : Req := { page := .str "abc", description_length := .str "xyz" }

/-- A request whose only supplied parameter, `page`, fails numeric coercion
(`description_length` is absent). -/
def reqBadPage : Req := { page := .str "abc" }

/-- A request with numeric `page` and `limit` and `description_length`
omitted. -/
def reqPLNoDL : Req := { page := .str "2", limit := .str "2" }

/-- A request with every query parameter omitted. -/
def reqNoDL : Req := { }

/-- A store with twenty-one products all named `x`. -/
def dbSearch : DB :=
  { products := (List.range 21).map (fun i =>
      { product_id := toString i, name := "x", description := "" }),
    categories := [], departments := [], productCategories := [],
    taxes := [], attributeRows := [], attributeValues := [] }

/-- An exact-match search for the name `x` with default pagination. -/
def reqSearch : Req := { query_string := .str "x", all_words := .str "on" }

/-- A substring search for `ap` on the first page. -/
def reqSearchAp : Req := { query_string := .str "ap", page := .str "1", limit := .str "20" }

/-- A store in which product `p1` is linked to two categories. -/
def dbPC : DB :=
  { products := [], departments := [], taxes := [], attributeRows := [], attributeValues := [],
    categories := [{ category_id := "c1", name := "Home", department_id := "d1" },
                   { category_id := "c2", name := "Garden", department_id := "d1" }],
    productCategories := [{ product_id := "p1", category_id := "c1" },
                          { product_id := "p1", category_id := "c2" }] }

/-- A fully valid list request (page 1, limit 20, description length 50). -/
def reqOkC6 : Req := { page := .str "1", limit := .str "20", description_length := .str "50" }

/-! ### Bridging lemmas for the rational operations -/

theorem qAdd_eq (a b : ℚ) : qAdd a b = a + b := by
  have ha : ((a.den : ℚ)) ≠ 0 := Nat.cast_ne_zero.mpr a.den_nz
  have hb : ((b.den : ℚ)) ≠ 0 := Nat.cast_ne_zero.mpr b.den_nz
  rw [qAdd, Rat.divInt_eq_div]
  push_cast
  conv_rhs => rw [← Rat.num_div_den a, ← Rat.num_div_den b]
  field_simp

theorem qSub_eq (a b : ℚ) : qSub a b = a - b := by
  have ha : ((a.den : ℚ)) ≠ 0 := Nat.cast_ne_zero.mpr a.den_nz
  have hb : ((b.den : ℚ)) ≠ 0 := Nat.cast_ne_zero.mpr b.den_nz
  rw [qSub, Rat.divInt_eq_div]
  push_cast
  conv_rhs => rw [← Rat.num_div_den a, ← Rat.num_div_den b]
  field_simp
  ring

theorem qMul_eq (a b : ℚ) : qMul a b = a * b := by
  have ha : ((a.den : ℚ)) ≠ 0 := Nat.cast_ne_zero.mpr a.den_nz
  have hb : ((b.den : ℚ)) ≠ 0 := Nat.cast_ne_zero.mpr b.den_nz
  rw [qMul, Rat.divInt_eq_div]
  push_cast
  conv_rhs => rw [← Rat.num_div_den a, ← Rat.num_div_den b]
  field_simp

theorem qDiv_eq (a b : ℚ) : qDiv a b = a / b := by
  rcases eq_or_ne b 0 with rfl | hbz
  · simp [qDiv]
  · have ha : ((a.den : ℚ)) ≠ 0 := Nat.cast_ne_zero.mpr a.den_nz
    have hbn : ((b.num : ℚ)) ≠ 0 := by
      exact_mod_cast Rat.num_ne_zero.mpr hbz
    rw [qDiv, Rat.divInt_eq_div]
    push_cast
    conv_rhs => rw [← Rat.num_div_den a, ← Rat.num_div_den b]
    field_simp

/-! ### Helper lemmas about the JavaScript coercion model -/

theorem jsNumOf_eq_finite {v : JSVal} {q : ℚ} (h : toNumberJs v = some q) :
    jsNumOf v = .finite q := by simp [jsNumOf, h]

theorem isNaNjs_false_of_toNumber {v : JSVal} {q : ℚ} (h : toNumberJs v = some q) :
    isNaNjs v = false := by simp [isNaNjs, h]

theorem execWindow_natCast {α : Type} (rows : List α) (li : ℤ) (o : ℕ) (h : 0 ≤ li) :
    execWindow rows (some li) (some (.finite (o : ℚ))) = .ok ((rows.drop o).take li.toNat) := by
  simp [execWindow, h]

theorem jsOr_jsDefault (v : JSVal) (d : Int) (hd : d ≠ 0) :
    jsOr (jsDefault v d) (.num d) = jsOr v (.num d) := by
  cases v with
  | undef => simp [jsDefault, jsOr, truthyJs, hd]
  | num n => rfl
  | str s => rfl

theorem parseIntJS_truthy_default (v : JSVal) (d : Int) :
    (if truthyJs v then parseIntJS v else some d) = parseIntJS (jsOr v (.num d)) := by
  by_cases h : truthyJs v <;> simp [jsOr, h, parseIntJS]

theorem isNaNjs_jsDefault_of_or {v : JSVal} {d : Int}
    (h : isNaNjs (jsOr v (.num d)) = false) : isNaNjs (jsDefault v d) = false := by
  cases v with
  | undef => simp [jsDefault, isNaNjs, toNumberJs]
  | num n => simp [jsDefault, isNaNjs, toNumberJs]
  | str s =>
    by_cases hs : s = ""
    · subst hs; simp [jsDefault, isNaNjs, toNumberJs, jsStringToNumber]
    · simpa [jsDefault, jsOr, truthyJs, hs] using h

theorem isNaNjs_jsDefault_of_self {v : JSVal} {d : Int}
    (h : isNaNjs v = false) : isNaNjs (jsDefault v d) = false := by
  cases v with
  | undef => simp [isNaNjs, toNumberJs] at h
  | num n => simpa [jsDefault] using h
  | str s => simpa [jsDefault] using h

/-! ### Claim theorems -/

/-- C1: for every `getAllProducts` request whose defaulted `page` and `limit`
parameters coerce to numbers, with the limit positive, and whose response has
status 200, the response's `paginationMeta` satisfies
`totalPages = ceil(totalRecords / limit)`, `currentPage` is the `parseInt`
value of the `page` parameter (defaulted to 1 when missing),
`currentPageSize` is the `parseInt` value of the `limit` parameter (defaulted
to 20 when missing), and `totalRecords` is the product count. -/
theorem getAllProducts_pagination_meta
    (qm : List Attr) (req : Req) (db : DB) (p l : ℚ)
    (hp : toNumberJs (jsOr req.page (.num 1)) = some p)
    (hl : toNumberJs (jsOr req.limit (.num 20)) = some l)
    (hlpos : 0 < l)
    (h200 : outcomeStatus (getAllProducts qm req db none).outcome = some 200) :
    (outcomeBody (getAllProducts qm req db none).outcome).bind bodyMeta
      = some { currentPage := parseIntJS (jsOr req.page (.num 1)),
               currentPageSize := parseIntJS (jsOr req.limit (.num 20)),
               totalPages := .finite ((⌈(db.products.length : ℚ) / l⌉ : ℤ) : ℚ),
               totalRecords := db.products.length } := by
  have hpn : isNaNjs (jsOr req.page (.num 1)) = false := isNaNjs_false_of_toNumber hp
  have hln : isNaNjs (jsOr req.limit (.num 20)) = false := isNaNjs_false_of_toNumber hl
  have hlz : l ≠ 0 := ne_of_gt hlpos
  by_cases hdl : isNaNjs req.description_length
  · simp [getAllProducts, hpn, hln, hdl, outcomeStatus] at h200
  · simp only [Bool.not_eq_true] at hdl
    rcases hw : execWindow db.products (parseIntJS (jsOr req.limit (JSVal.num 20)))
        (some (jsMul (jsSub (jsNumOf (jsOr req.page (JSVal.num 1))) (JSNum.finite 1))
          (JSNum.finite l))) with e | rows
    · simp [getAllProducts, hpn, hln, hdl, jsNumOf_eq_finite hl, hw, outcomeStatus] at h200
    · simp [getAllProducts, hpn, hln, hdl, jsNumOf_eq_finite hl, hw, outcomeStatus,
        outcomeBody, bodyMeta, jsDiv, jsCeil, hlz, qDiv_eq]

/-- C1 witness: a page-2, limit-2 request over three products succeeds and
carries `currentPage = 2`, `currentPageSize = 2`, `totalPages = ceil(3/2)`,
`totalRecords = 3`. -/
theorem getAllProducts_pagination_meta_witness :
    outcomeStatus (getAllProducts productsQueryMapAttrs reqT dbT none).outcome = some 200
    ∧ (outcomeBody (getAllProducts productsQueryMapAttrs reqT dbT none).outcome).bind bodyMeta
      = some { currentPage := some 2, currentPageSize := some 2,
               totalPages := .finite ((⌈(dbT.products.length : ℚ) / 2⌉ : ℤ) : ℚ),
               totalRecords := dbT.products.length } :=
  ⟨by decide, getAllProducts_pagination_meta productsQueryMapAttrs reqT dbT 2 2
    (by decide) (by decide) (by norm_num) (by decide)⟩

/-- C2 counterexample: `description_length = "2.5"` is supplied and is not an
integer, yet `getProduct` passes the `isNaN` check, issues a database query
and answers 200, refuting the claim that any supplied non-integer parameter
yields a 400 with no query. -/
theorem nonInteger_param_not_rejected :
    (getProduct productsQueryMapAttrs reqFloatDL dbOneProduct none).outcome
      = .respond 200 (.singleProduct
          { product_id := "7", name := "Chair", description := "solid oak" })
    ∧ (getProduct productsQueryMapAttrs reqFloatDL dbOneProduct none).query ≠ none := by
  decide

/-- C2 (amended): for each of the four list endpoints, whenever `page`,
`limit` or `description_length` fails JavaScript numeric coercion (the
`isNaN` check, after that method's own defaulting), and for `getProduct`
whenever its only validated parameter `description_length` fails the
coercion, that method returns 400 with the `err`/`status: false` body and
issues no database query.  Each conjunct is conditioned only on its own
method's validation, so a request with, say, a non-numeric `page` and an
absent `description_length` is covered for the four list endpoints. -/
theorem invalid_numeric_params_rejected
    (qm : List Attr) (req : Req) (db : DB) (dbErr : Option String) :
    ((isNaNjs (jsOr req.page (.num 1)) || isNaNjs (jsOr req.limit (.num 20))
        || isNaNjs req.description_length) = true →
      (getAllProducts qm req db dbErr).outcome = .respond 400 validationBody
      ∧ (getAllProducts qm req db dbErr).query = none)
    ∧ ((isNaNjs (jsOr req.page (.num 1)) || isNaNjs (jsOr req.limit (.num 20))
        || isNaNjs (jsDefault req.description_length 200)) = true →
      (searchProduct qm req db dbErr).outcome = .respond 400 validationBody
      ∧ (searchProduct qm req db dbErr).query = none)
    ∧ ((isNaNjs (jsDefault req.page 1) || isNaNjs (jsDefault req.limit 20)
        || isNaNjs (jsDefault req.description_length 200)) = true →
      (getProductsByCategory qm req db dbErr).outcome = .respond 400 validationBody
      ∧ (getProductsByCategory qm req db dbErr).query = none)
    ∧ ((isNaNjs (jsDefault req.page 1) || isNaNjs (jsDefault req.limit 20)
        || isNaNjs (jsDefault req.description_length 200)) = true →
      (getProductsByDepartment qm req db dbErr).outcome = .respond 400 validationBody
      ∧ (getProductsByDepartment qm req db dbErr).query = none)
    ∧ (isNaNjs (jsDefault req.description_length 200) = true →
      (getProduct qm req db dbErr).outcome
        = .respond 400 (.validationErr "description_length should be valid integer values")
      ∧ (getProduct qm req db dbErr).query = none) := by
  refine ⟨?_, ?_, ?_, ?_, ?_⟩
  · intro h
    exact ⟨by simp [getAllProducts, h], by simp [getAllProducts, h]⟩
  · intro h
    exact ⟨by simp [searchProduct, h], by simp [searchProduct, h]⟩
  · intro h
    exact ⟨by simp [getProductsByCategory, h], by simp [getProductsByCategory, h]⟩
  · intro h
    exact ⟨by simp [getProductsByDepartment, h], by simp [getProductsByDepartment, h]⟩
  · intro h
    exact ⟨by simp [getProduct, h], by simp [getProduct, h]⟩

/-- C2 witness: a request whose only supplied parameter is the non-numeric
`page = "abc"` is rejected with 400 and no query by all four list endpoints,
and a request with a non-numeric `description_length` is rejected by
`getProduct`. -/
theorem invalid_numeric_params_rejected_witness :
    ((getAllProducts productsQueryMapAttrs reqBadPage dbT none).outcome
        = .respond 400 validationBody
      ∧ (getAllProducts productsQueryMapAttrs reqBadPage dbT none).query = none)
    ∧ ((searchProduct productsQueryMapAttrs reqBadPage dbT none).outcome
        = .respond 400 validationBody
      ∧ (searchProduct productsQueryMapAttrs reqBadPage dbT none).query = none)
    ∧ ((getProductsByCategory productsQueryMapAttrs reqBadPage dbT none).outcome
        = .respond 400 validationBody
      ∧ (getProductsByCategory productsQueryMapAttrs reqBadPage dbT none).query = none)
    ∧ ((getProductsByDepartment productsQueryMapAttrs reqBadPage dbT none).outcome
        = .respond 400 validationBody
      ∧ (getProductsByDepartment productsQueryMapAttrs reqBadPage dbT none).query = none)
    ∧ ((getProduct productsQueryMapAttrs reqBadBoth dbT none).outcome
        = .respond 400 (.validationErr "description_length should be valid integer values")
      ∧ (getProduct productsQueryMapAttrs reqBadBoth dbT none).query = none) := by
  have hA := invalid_numeric_params_rejected productsQueryMapAttrs reqBadPage dbT none
  have hB := invalid_numeric_params_rejected productsQueryMapAttrs reqBadBoth dbT none
  exact ⟨hA.1 (by decide), hA.2.1 (by decide), hA.2.2.1 (by decide), hA.2.2.2.1 (by decide),
    hB.2.2.2.2 (by decide)⟩

/-- C3 counterexample: an exact-name search over twenty-one matching products
returns only the first twenty (the default limit window), so the returned
products are not exactly those whose name equals the query string. -/
theorem searchProduct_window_counterexample :
    reqSearch.all_words = .str "on"
    ∧ (searchProduct productsQueryMapAttrs reqSearch dbSearch none).outcome
        = .respond 200 (.productArr (dbSearch.products.take 20))
    ∧ dbSearch.products.take 20
        ≠ dbSearch.products.filter (fun pr => pr.name == jsToString reqSearch.query_string) := by
  decide

/-- C3 (amended): for every `searchProduct` request passing validation whose
window parameters are valid, the products returned are exactly the requested
offset/limit window of the products matching the where-clause, and that
where-clause selects exact name equality when `all_words` is the string `on`
and substring containment otherwise. -/
theorem searchProduct_filter_window
    (qm : List Attr) (req : Req) (db : DB) (p l : ℚ) (o : ℕ) (li : ℤ)
    (hp : toNumberJs (jsOr req.page (.num 1)) = some p)
    (hl : toNumberJs (jsOr req.limit (.num 20)) = some l)
    (hdl : isNaNjs (jsDefault req.description_length 200) = false)
    (hoff : (p - 1) * l = (o : ℚ))
    (hli : parseIntJS (jsOr req.limit (.num 20)) = some li)
    (hlin : 0 ≤ li) :
    (searchProduct qm req db none).outcome
      = .respond 200 (.productArr
          (((db.products.filter (fun pr => nameMatches (searchCondOf req) pr.name)).drop o).take
            li.toNat))
    ∧ searchCondOf req
      = (if req.all_words = .str "on" then NameCond.eqCond (jsToString req.query_string)
         else NameCond.substringCond (jsToString req.query_string)) := by
  have hpn : isNaNjs (jsOr req.page (.num 1)) = false := isNaNjs_false_of_toNumber hp
  have hln : isNaNjs (jsOr req.limit (.num 20)) = false := isNaNjs_false_of_toNumber hl
  have hv : (isNaNjs (jsOr req.page (.num 1)) || isNaNjs (jsOr req.limit (.num 20))
      || isNaNjs (jsDefault req.description_length 200)) = false := by
    rw [hpn, hln, hdl]; rfl
  have hofq : jsMul (jsSub (jsNumOf (jsOr req.page (JSVal.num 1))) (JSNum.finite 1))
      (jsNumOf (jsOr req.limit (JSVal.num 20))) = JSNum.finite ((o : ℕ) : ℚ) := by
    rw [jsNumOf_eq_finite hp, jsNumOf_eq_finite hl]
    simp [jsSub, jsMul, qSub_eq, qMul_eq, hoff]
  constructor
  · simp only [searchProduct, hv]
    simp only [Bool.false_eq_true, if_false, hofq, hli]
    rw [execWindow_natCast _ _ _ hlin]
  · rfl

/-- C3 witness: a substring search for `ap` on page 1 with limit 20 returns
exactly the products whose names contain `ap`. -/
theorem searchProduct_filter_window_witness :
    (searchProduct productsQueryMapAttrs reqSearchAp dbT none).outcome
      = .respond 200 (.productArr
          (((dbT.products.filter (fun pr =>
              nameMatches (searchCondOf reqSearchAp) pr.name)).drop 0).take (Int.toNat 20)))
    ∧ searchCondOf reqSearchAp
      = (if reqSearchAp.all_words = .str "on"
         then NameCond.eqCond (jsToString reqSearchAp.query_string)
         else NameCond.substringCond (jsToString reqSearchAp.query_string)) :=
  searchProduct_filter_window productsQueryMapAttrs reqSearchAp dbT 1 20 0 20
    (by decide) (by decide) (by decide) (by norm_num) (by decide) (by norm_num)

/-- C5 counterexample: a successful `searchProduct` response is a bare JSON
array of products, not an object of the shape
`paginationMeta`/`rows`/`status`, refuting the claim that every successful
paginated-list response has that shape. -/
theorem searchProduct_success_not_rows_shape :
    (searchProduct productsQueryMapAttrs reqSearchAp dbT none).outcome
      = .respond 200 (.productArr
          [{ product_id := "1", name := "apple", description := "a" },
           { product_id := "3", name := "grape", description := "c" }])
    ∧ isPaginatedShape (.productArr
          [{ product_id := "1", name := "apple", description := "a" },
           { product_id := "3", name := "grape", description := "c" }]) = false := by
  decide

/-- C5 (amended): `getAllProducts` 200-responses have the
`paginationMeta`/`rows`/`status` shape; `searchProduct` 200-responses are a
bare product array; `getProductsByCategory` and `getProductsByDepartment`
200-responses are an object with only a `rows` field; and every 404 response
of the seven methods that can answer 404 has the shape of an `error` object
with `status: 404` and a `message`. -/
theorem response_shapes (qm : List Attr) (req : Req) (db : DB) (dbErr : Option String) :
    statusBodyOk 200 isPaginatedShape (getAllProducts qm req db dbErr).outcome = true
    ∧ statusBodyOk 200 isBareProductArray (searchProduct qm req db dbErr).outcome = true
    ∧ statusBodyOk 200 isRowsOnlyShape (getProductsByCategory qm req db dbErr).outcome = true
    ∧ statusBodyOk 200 isRowsOnlyShape (getProductsByDepartment qm req db dbErr).outcome = true
    ∧ statusBodyOk 404 isError404Shape (getProduct qm req db dbErr).outcome = true
    ∧ statusBodyOk 404 isError404Shape (getDepartment req db dbErr).outcome = true
    ∧ statusBodyOk 404 isError404Shape (getSingleCategory req db dbErr).outcome = true
    ∧ statusBodyOk 404 isError404Shape (getSingleTax req db dbErr).outcome = true
    ∧ statusBodyOk 404 isError404Shape (getSingleAttribute req db dbErr).outcome = true
    ∧ statusBodyOk 404 isError404Shape (getAttributeValues req db dbErr).outcome = true
    ∧ statusBodyOk 404 isError404Shape (getProductCategories req db dbErr).outcome = true := by
  refine ⟨?_, ?_, ?_, ?_, ?_, ?_, ?_, ?_, ?_, ?_, ?_⟩
  · simp only [getAllProducts]
    repeat' split
    all_goals simp [statusBodyOk, isPaginatedShape]
  · simp only [searchProduct]
    repeat' split
    all_goals simp [statusBodyOk, isBareProductArray]
  · simp only [getProductsByCategory]
    repeat' split
    all_goals simp [statusBodyOk, isRowsOnlyShape]
  · simp only [getProductsByDepartment]
    repeat' split
    all_goals simp [statusBodyOk, isRowsOnlyShape]
  · simp only [getProduct]
    repeat' split
    all_goals simp [statusBodyOk, isError404Shape]
  · simp only [getDepartment]
    repeat' split
    all_goals simp [statusBodyOk, isError404Shape]
  · simp only [getSingleCategory]
    repeat' split
    all_goals simp [statusBodyOk, isError404Shape]
  · simp only [getSingleTax]
    repeat' split
    all_goals simp [statusBodyOk, isError404Shape]
  · simp only [getSingleAttribute]
    repeat' split
    all_goals simp [statusBodyOk, isError404Shape]
  · simp only [getAttributeValues]
    repeat' split
    all_goals simp [statusBodyOk, isError404Shape]
  · simp only [getProductCategories]
    repeat' split
    all_goals simp [statusBodyOk, isError404Shape]

/-- C6: a valid `getAllProducts` call grows the shared
`productsQueryMap.attributes` array (the shallow `Object.assign` copy aliases
it and `push` mutates it), so the state after the call differs from the
initial state and a second identical request builds a different query, while
`searchProduct`, which copies with `concat`, leaves the shared state
unchanged. -/
theorem getAllProducts_mutates_shared_state :
    (getAllProducts productsQueryMapAttrs reqOkC6 dbT none).qmAfter ≠ productsQueryMapAttrs
    ∧ (getAllProducts (getAllProducts productsQueryMapAttrs reqOkC6 dbT none).qmAfter
        reqOkC6 dbT none).query
      ≠ (getAllProducts productsQueryMapAttrs reqOkC6 dbT none).query
    ∧ (searchProduct productsQueryMapAttrs reqOkC6 dbT none).qmAfter
      = productsQueryMapAttrs := by
  decide

/-- C7: for every list request whose defaulted `page` and `limit` coerce to
numbers, each of the four list methods that also accepts the request's
`description_length` (validated raw by `getAllProducts`, defaulted to 200 by
the other three, so an omitted value is fine there) issues its ORM query with
`limit` equal to the `parseInt` of the default-20 limit parameter and
`offset` equal to `(page - 1) * limit` computed on the raw numeric values,
and the defaults 1 and 20 are taken when the parameters are missing. -/
theorem pagination_offset_limit
    (qm : List Attr) (req : Req) (db : DB) (dbErr : Option String) (p l : ℚ)
    (hp : toNumberJs (jsOr req.page (.num 1)) = some p)
    (hl : toNumberJs (jsOr req.limit (.num 20)) = some l) :
    (isNaNjs req.description_length = false →
      (getAllProducts qm req db dbErr).query.map SqlQuery.limit
        = some (parseIntJS (jsOr req.limit (.num 20)))
      ∧ (getAllProducts qm req db dbErr).query.map SqlQuery.offset
        = some (some (.finite ((p - 1) * l))))
    ∧ (isNaNjs (jsDefault req.description_length 200) = false →
      (searchProduct qm req db dbErr).query.map SqlQuery.limit
        = some (parseIntJS (jsOr req.limit (.num 20)))
      ∧ (searchProduct qm req db dbErr).query.map SqlQuery.offset
        = some (some (.finite ((p - 1) * l))))
    ∧ (isNaNjs (jsDefault req.description_length 200) = false →
      (getProductsByCategory qm req db dbErr).query.map SqlQuery.limit
        = some (parseIntJS (jsOr req.limit (.num 20)))
      ∧ (getProductsByCategory qm req db dbErr).query.map SqlQuery.offset
        = some (some (.finite ((p - 1) * l))))
    ∧ (isNaNjs (jsDefault req.description_length 200) = false →
      (getProductsByDepartment qm req db dbErr).query.map SqlQuery.limit
        = some (parseIntJS (jsOr req.limit (.num 20)))
      ∧ (getProductsByDepartment qm req db dbErr).query.map SqlQuery.offset
        = some (some (.finite ((p - 1) * l))))
    ∧ (req.page = .undef → p = 1)
    ∧ (req.limit = .undef → l = 20) := by
  have hpn : isNaNjs (jsOr req.page (.num 1)) = false := isNaNjs_false_of_toNumber hp
  have hln : isNaNjs (jsOr req.limit (.num 20)) = false := isNaNjs_false_of_toNumber hl
  have hpd : isNaNjs (jsDefault req.page 1) = false := isNaNjs_jsDefault_of_or hpn
  have hld : isNaNjs (jsDefault req.limit 20) = false := isNaNjs_jsDefault_of_or hln
  have hora : jsOr (jsDefault req.page 1) (.num 1) = jsOr req.page (.num 1) :=
    jsOr_jsDefault req.page 1 (by decide)
  have horb : jsOr (jsDefault req.limit 20) (.num 20) = jsOr req.limit (.num 20) :=
    jsOr_jsDefault req.limit 20 (by decide)
  refine ⟨?_, ?_, ?_, ?_, ?_, ?_⟩
  · intro hdl
    refine ⟨?_, ?_⟩
    · simp [getAllProducts, hpn, hln, hdl]
    · simp [getAllProducts, hpn, hln, hdl, jsNumOf_eq_finite hp, jsNumOf_eq_finite hl,
        jsSub, jsMul, qSub_eq, qMul_eq]
  · intro hdd
    refine ⟨?_, ?_⟩
    · simp [searchProduct, hpn, hln, hdd]
    · simp [searchProduct, hpn, hln, hdd, jsNumOf_eq_finite hp, jsNumOf_eq_finite hl,
        jsSub, jsMul, qSub_eq, qMul_eq]
  · intro hdd
    refine ⟨?_, ?_⟩
    · simp [getProductsByCategory, hpd, hld, hdd, ← parseIntJS_truthy_default, horb,
        parseIntJS_truthy_default]
    · simp [getProductsByCategory, hpd, hld, hdd, hora, horb, jsNumOf_eq_finite hp,
        jsNumOf_eq_finite hl, jsSub, jsMul, qSub_eq, qMul_eq, parseIntJS_truthy_default]
  · intro hdd
    refine ⟨?_, ?_⟩
    · simp [getProductsByDepartment, hpd, hld, hdd, horb, parseIntJS_truthy_default]
    · simp [getProductsByDepartment, hpd, hld, hdd, hora, horb, jsNumOf_eq_finite hp,
        jsNumOf_eq_finite hl, jsSub, jsMul, qSub_eq, qMul_eq, parseIntJS_truthy_default]
  · intro h
    rw [h] at hp
    simp [jsOr, truthyJs, toNumberJs] at hp
    exact hp.symm
  · intro h
    rw [h] at hl
    simp [jsOr, truthyJs, toNumberJs] at hl
    exact hl.symm

/-- C7 witness: with `page = "2"`, `limit = "2"` and a numeric
`description_length`, `getAllProducts` queries with limit 2 and offset
`(2 - 1) * 2`; and with the same `page`/`limit` but `description_length`
omitted, the three defaulting list methods still query with that limit and
offset. -/
theorem pagination_offset_limit_witness :
    ((getAllProducts productsQueryMapAttrs reqT dbT none).query.map SqlQuery.limit
        = some (parseIntJS (jsOr (JSVal.str "2") (.num 20)))
      ∧ (getAllProducts productsQueryMapAttrs reqT dbT none).query.map SqlQuery.offset
        = some (some (.finite (((2 : ℚ) - 1) * 2))))
    ∧ ((searchProduct productsQueryMapAttrs reqPLNoDL dbT none).query.map SqlQuery.limit
        = some (parseIntJS (jsOr (JSVal.str "2") (.num 20)))
      ∧ (searchProduct productsQueryMapAttrs reqPLNoDL dbT none).query.map SqlQuery.offset
        = some (some (.finite (((2 : ℚ) - 1) * 2))))
    ∧ ((getProductsByCategory productsQueryMapAttrs reqPLNoDL dbT none).query.map SqlQuery.limit
        = some (parseIntJS (jsOr (JSVal.str "2") (.num 20)))
      ∧ (getProductsByCategory productsQueryMapAttrs reqPLNoDL dbT none).query.map
          SqlQuery.offset
        = some (some (.finite (((2 : ℚ) - 1) * 2))))
    ∧ ((getProductsByDepartment productsQueryMapAttrs reqPLNoDL dbT none).query.map
          SqlQuery.limit
        = some (parseIntJS (jsOr (JSVal.str "2") (.num 20)))
      ∧ (getProductsByDepartment productsQueryMapAttrs reqPLNoDL dbT none).query.map
          SqlQuery.offset
        = some (some (.finite (((2 : ℚ) - 1) * 2)))) := by
  have hA := pagination_offset_limit productsQueryMapAttrs reqT dbT none 2 2
    (by decide) (by decide)
  have hB := pagination_offset_limit productsQueryMapAttrs reqPLNoDL dbT none 2 2
    (by decide) (by decide)
  exact ⟨hA.1 (by decide), hB.2.1 (by decide), hB.2.2.1 (by decide), hB.2.2.2.1 (by decide)⟩

/-- C8: whenever the database call of a controller method throws, the method
resolves to a single `next(error)` with that error and sends no JSON
response; no thrown error is mapped to a 200, 400 or 404 body.  The eleven
methods without parameter validation forward the error for every request;
each of the five validating methods does so whenever its own validation
passes (otherwise it answers 400 before any query is issued).
`getProductAttributes` is the one method with no database call. -/
theorem db_error_forwarded (qm : List Attr) (req : Req) (db : DB) (e : String) :
    ((isNaNjs (jsOr req.page (.num 1)) || isNaNjs (jsOr req.limit (.num 20))
        || isNaNjs req.description_length) = false →
      (getAllProducts qm req db (some e)).outcome = .nextErr e)
    ∧ ((isNaNjs (jsOr req.page (.num 1)) || isNaNjs (jsOr req.limit (.num 20))
        || isNaNjs (jsDefault req.description_length 200)) = false →
      (searchProduct qm req db (some e)).outcome = .nextErr e)
    ∧ ((isNaNjs (jsDefault req.page 1) || isNaNjs (jsDefault req.limit 20)
        || isNaNjs (jsDefault req.description_length 200)) = false →
      (getProductsByCategory qm req db (some e)).outcome = .nextErr e)
    ∧ ((isNaNjs (jsDefault req.page 1) || isNaNjs (jsDefault req.limit 20)
        || isNaNjs (jsDefault req.description_length 200)) = false →
      (getProductsByDepartment qm req db (some e)).outcome = .nextErr e)
    ∧ (isNaNjs (jsDefault req.description_length 200) = false →
      (getProduct qm req db (some e)).outcome = .nextErr e)
    ∧ (getAllDepartments req db (some e)).outcome = .nextErr e
    ∧ (getDepartment req db (some e)).outcome = .nextErr e
    ∧ (getAllCategories req db (some e)).outcome = .nextErr e
    ∧ (getSingleCategory req db (some e)).outcome = .nextErr e
    ∧ (getDepartmentCategories req db (some e)).outcome = .nextErr e
    ∧ (getProductCategories req db (some e)).outcome = .nextErr e
    ∧ (getAllTax req db (some e)).outcome = .nextErr e
    ∧ (getSingleTax req db (some e)).outcome = .nextErr e
    ∧ (getAllAttributes req db (some e)).outcome = .nextErr e
    ∧ (getSingleAttribute req db (some e)).outcome = .nextErr e
    ∧ (getAttributeValues req db (some e)).outcome = .nextErr e := by
  refine ⟨?_, ?_, ?_, ?_, ?_, ?_, ?_, ?_, ?_, ?_, ?_, ?_, ?_, ?_, ?_, ?_⟩
  · intro h
    simp [getAllProducts, h]
  · intro h
    simp [searchProduct, h]
  · intro h
    simp [getProductsByCategory, h]
  · intro h
    simp [getProductsByDepartment, h]
  · intro h
    simp [getProduct, h]
  · simp [getAllDepartments]
  · simp [getDepartment]
  · simp [getAllCategories]
  · simp [getSingleCategory]
  · simp [getDepartmentCategories]
  · simp [getProductCategories]
  · simp [getAllTax]
  · simp [getSingleTax]
  · simp [getAllAttributes]
  · simp [getSingleAttribute]
  · simp [getAttributeValues]

/-- C8 witness: with the injected database error `boom`, a valid request has
all sixteen querying methods forward exactly that error, and a bare request
with no query parameters still has the defaulting and non-validating methods
forward it. -/
theorem db_error_forwarded_witness :
    ((getAllProducts productsQueryMapAttrs reqOkC6 dbT (some "boom")).outcome = .nextErr "boom"
    ∧ (searchProduct productsQueryMapAttrs reqOkC6 dbT (some "boom")).outcome = .nextErr "boom"
    ∧ (getProductsByCategory productsQueryMapAttrs reqOkC6 dbT (some "boom")).outcome
      = .nextErr "boom"
    ∧ (getProductsByDepartment productsQueryMapAttrs reqOkC6 dbT (some "boom")).outcome
      = .nextErr "boom"
    ∧ (getProduct productsQueryMapAttrs reqOkC6 dbT (some "boom")).outcome = .nextErr "boom"
    ∧ (getAllDepartments reqOkC6 dbT (some "boom")).outcome = .nextErr "boom"
    ∧ (getDepartment reqOkC6 dbT (some "boom")).outcome = .nextErr "boom"
    ∧ (getAllCategories reqOkC6 dbT (some "boom")).outcome = .nextErr "boom"
    ∧ (getSingleCategory reqOkC6 dbT (some "boom")).outcome = .nextErr "boom"
    ∧ (getDepartmentCategories reqOkC6 dbT (some "boom")).outcome = .nextErr "boom"
    ∧ (getProductCategories reqOkC6 dbT (some "boom")).outcome = .nextErr "boom"
    ∧ (getAllTax reqOkC6 dbT (some "boom")).outcome = .nextErr "boom"
    ∧ (getSingleTax reqOkC6 dbT (some "boom")).outcome = .nextErr "boom"
    ∧ (getAllAttributes reqOkC6 dbT (some "boom")).outcome = .nextErr "boom"
    ∧ (getSingleAttribute reqOkC6 dbT (some "boom")).outcome = .nextErr "boom"
    ∧ (getAttributeValues reqOkC6 dbT (some "boom")).outcome = .nextErr "boom")
    ∧ ((searchProduct productsQueryMapAttrs reqNoDL dbT (some "boom")).outcome
      = .nextErr "boom"
    ∧ (getAllTax reqNoDL dbT (some "boom")).outcome = .nextErr "boom") := by
  have hA := db_error_forwarded productsQueryMapAttrs reqOkC6 dbT "boom"
  have hB := db_error_forwarded productsQueryMapAttrs reqNoDL dbT "boom"
  exact ⟨⟨hA.1 (by decide), hA.2.1 (by decide), hA.2.2.1 (by decide), hA.2.2.2.1 (by decide),
      hA.2.2.2.2.1 (by decide), hA.2.2.2.2.2⟩,
    hB.2.1 (by decide), hB.2.2.2.2.2.2.2.2.2.2.2.1⟩

/-- C9: omitting `description_length` makes `getAllProducts` answer 400 with
no query (its `isNaN` check sees `undefined`), while `searchProduct`,
`getProductsByCategory`, `getProductsByDepartment` and `getProduct` default
the parameter to 200 — their substring literal interpolates 200 — and never
answer 400 on such a request. -/
theorem omitted_description_length_divergence
    (qm : List Attr) (req : Req) (db : DB) (dbErr : Option String)
    (hdl : req.description_length = .undef)
    (hp : isNaNjs (jsOr req.page (.num 1)) = false)
    (hl : isNaNjs (jsOr req.limit (.num 20)) = false) :
    ((getAllProducts qm req db dbErr).outcome = .respond 400 validationBody
      ∧ (getAllProducts qm req db dbErr).query = none)
    ∧ ((searchProduct qm req db dbErr).query.map SqlQuery.attrs
        = some (some (qm ++ [substringLiteral (.num 200)]))
      ∧ outcomeStatus (searchProduct qm req db dbErr).outcome ≠ some 400)
    ∧ ((getProductsByCategory qm req db dbErr).query.map SqlQuery.includeProductAttrs
        = some (some (qm ++ [substringLiteral (.num 200)]))
      ∧ outcomeStatus (getProductsByCategory qm req db dbErr).outcome ≠ some 400)
    ∧ ((getProductsByDepartment qm req db dbErr).query.map SqlQuery.includeProductAttrs
        = some (some (qm ++ [substringLiteralQualified (.num 200)]))
      ∧ outcomeStatus (getProductsByDepartment qm req db dbErr).outcome ≠ some 400)
    ∧ ((getProduct qm req db dbErr).query.map SqlQuery.attrs
        = some (some (qm ++ [.col "image", .col "display", .col "image_2",
            substringLiteral (.num 200)]))
      ∧ outcomeStatus (getProduct qm req db dbErr).outcome ≠ some 400) := by
  have hpd : isNaNjs (jsDefault req.page 1) = false := isNaNjs_jsDefault_of_or hp
  have hld : isNaNjs (jsDefault req.limit 20) = false := isNaNjs_jsDefault_of_or hl
  have hvP : isNaNjs (jsDefault req.description_length 200) = false := by
    rw [hdl]; simp [jsDefault, isNaNjs, toNumberJs]
  have hvS : (isNaNjs (jsOr req.page (.num 1)) || isNaNjs (jsOr req.limit (.num 20))
      || isNaNjs (jsDefault req.description_length 200)) = false := by
    rw [hp, hl, hvP]; rfl
  have hvC : (isNaNjs (jsDefault req.page 1) || isNaNjs (jsDefault req.limit 20)
      || isNaNjs (jsDefault req.description_length 200)) = false := by
    rw [hpd, hld, hvP]; rfl
  refine ⟨⟨?_, ?_⟩, ⟨?_, ?_⟩, ⟨?_, ?_⟩, ⟨?_, ?_⟩, ?_, ?_⟩
  · simp [getAllProducts, hdl, isNaNjs, toNumberJs]
  · simp [getAllProducts, hdl, isNaNjs, toNumberJs]
  · simp only [searchProduct, hvS]
    simp [hdl, jsDefault, jsOr, truthyJs]
  · simp only [searchProduct, hvS]
    simp only [Bool.false_eq_true, if_false]
    split <;> try split
    all_goals simp [outcomeStatus]
  · simp only [getProductsByCategory, hvC]
    simp [hdl, jsDefault, jsOr, truthyJs]
  · simp only [getProductsByCategory, hvC]
    simp only [Bool.false_eq_true, if_false]
    split <;> try split
    all_goals simp [outcomeStatus]
  · simp only [getProductsByDepartment, hvC]
    simp [hdl, jsDefault, jsOr, truthyJs]
  · simp only [getProductsByDepartment, hvC]
    simp only [Bool.false_eq_true, if_false]
    split <;> try split
    all_goals simp [outcomeStatus]
  · simp only [getProduct, hvP]
    simp [hdl, jsDefault, jsOr, truthyJs]
  · simp only [getProduct, hvP]
    simp only [Bool.false_eq_true, if_false]
    split <;> try split
    all_goals simp [outcomeStatus]

/-- C9 witness: the request with every query parameter omitted is rejected by
`getAllProducts` and accepted, with substring length 200, by the other four
methods. -/
theorem omitted_description_length_divergence_witness :
    ((getAllProducts productsQueryMapAttrs reqNoDL dbT none).outcome
        = .respond 400 validationBody
      ∧ (getAllProducts productsQueryMapAttrs reqNoDL dbT none).query = none)
    ∧ ((searchProduct productsQueryMapAttrs reqNoDL dbT none).query.map SqlQuery.attrs
        = some (some (productsQueryMapAttrs ++ [substringLiteral (.num 200)]))
      ∧ outcomeStatus (searchProduct productsQueryMapAttrs reqNoDL dbT none).outcome ≠ some 400)
    ∧ ((getProductsByCategory productsQueryMapAttrs reqNoDL dbT none).query.map
          SqlQuery.includeProductAttrs
        = some (some (productsQueryMapAttrs ++ [substringLiteral (.num 200)]))
      ∧ outcomeStatus (getProductsByCategory productsQueryMapAttrs reqNoDL dbT none).outcome
          ≠ some 400)
    ∧ ((getProductsByDepartment productsQueryMapAttrs reqNoDL dbT none).query.map
          SqlQuery.includeProductAttrs
        = some (some (productsQueryMapAttrs ++ [substringLiteralQualified (.num 200)]))
      ∧ outcomeStatus (getProductsByDepartment productsQueryMapAttrs reqNoDL dbT none).outcome
          ≠ some 400)
    ∧ ((getProduct productsQueryMapAttrs reqNoDL dbT none).query.map SqlQuery.attrs
        = some (some (productsQueryMapAttrs ++ [.col "image", .col "display", .col "image_2",
            substringLiteral (.num 200)]))
      ∧ outcomeStatus (getProduct productsQueryMapAttrs reqNoDL dbT none).outcome ≠ some 400) :=
  omitted_description_length_divergence productsQueryMapAttrs reqNoDL dbT none
    (by decide) (by decide) (by decide)

/-- C10: `getProductCategories` answers 404 with message `Category not found`
when the product has no category links, and when it has links it answers 200
with the single category object of the first matching link (never an array,
never the remaining categories). -/
theorem getProductCategories_first_category (req : Req) (db : DB) :
    (db.productCategories.filter (fun pc => pc.product_id == req.product_id) = [] →
      (getProductCategories req db none).outcome
        = .respond 404 (.errorBody 404 "Category not found"))
    ∧ (∀ (l : ProductCategoryRow) (ls : List ProductCategoryRow) (c : CategoryRow),
        db.productCategories.filter (fun pc => pc.product_id == req.product_id) = l :: ls →
        db.categories.find? (fun cat => cat.category_id == l.category_id) = some c →
        (getProductCategories req db none).outcome = .respond 200 (.singleCategory c)) := by
  constructor
  · intro h
    simp [getProductCategories, h]
  · intro l ls c hfilter hfind
    simp [getProductCategories, hfilter, hfind]

/-- C10 witness: a product with no links gets the 404, and product `p1`,
linked to two categories, gets exactly the first one as a single object. -/
theorem getProductCategories_first_category_witness :
    (getProductCategories { product_id := "zzz" } dbPC none).outcome
      = .respond 404 (.errorBody 404 "Category not found")
    ∧ (getProductCategories { product_id := "p1" } dbPC none).outcome
      = .respond 200 (.singleCategory
          { category_id := "c1", name := "Home", department_id := "d1" }) :=
  ⟨(getProductCategories_first_category { product_id := "zzz" } dbPC).1 (by decide),
   (getProductCategories_first_category { product_id := "p1" } dbPC).2
     { product_id := "p1", category_id := "c1" }
     [{ product_id := "p1", category_id := "c2" }]
     { category_id := "c1", name := "Home", department_id := "d1" }
     (by decide) (by decide)⟩

end LetsGoShopping
